import Mathlib

/-!
# Release-notes action: a shallow embedding of `src/index.js`

The script is a linear pipeline over external collaborators (the CI input
facility, `JSON.parse`, the regular-expression engine, `git` run through
`execSync`, the nunjucks renderer and the filesystem).  The collaborators are
the fields of `Env`; what the script itself does (defaults, the order of the
stages, deduplication, the render context, the two `try`/`catch` blocks) is
translated line by line.

Conventions.
* A JavaScript string is a Lean `String`.
* A thrown `Error` is the `Except.error` branch carrying `error.message`.
* `World` is the observable state: the files and directories on disk and the
  sequence of calls made to the CI logging facility, to `execSync` and to the
  mutating filesystem functions, oldest first.
* External commands run by `execSync` answer through `Env.execSync`; they do
  not change the modelled working-tree files.
-/

namespace ReleaseNotes

/-! ## Values -/

/-- JSON values as produced by `JSON.parse`.  A number is carried as its
literal text, no claim depends on its numeric value. -/
inductive Json where
  | null : Json
  | bool (b : Bool) : Json
  | num (literal : String) : Json
  | str (s : String) : Json
  | arr (items : List Json) : Json
  | obj (members : List (String × Json)) : Json

/-- A JavaScript object as its own enumerable string-keyed properties in
creation order.  The engine lists integer-like keys first; that order is not
modelled, no property read depends on it. -/
abbrev JsObject := List (String × Json)

/-- The operator `a || b` on strings: the empty string is the only falsy string. -/
def strOr (a b : String) : String :=
  if a = "" then b else a

/-- Property definition `obj[key] = value`: an existing key keeps its position
and takes the new value, a new key is appended. -/
def JsObject.set : JsObject → String → Json → JsObject
  | [], key, value => [(key, value)]
  | (k, v) :: rest, key, value =>
    if k = key then (k, value) :: rest else (k, v) :: JsObject.set rest key value

/-- Property read `obj[key]`, `none` standing for `undefined`. -/
def JsObject.get : JsObject → String → Option Json
  | [], _ => none
  | (k, v) :: rest, key => if k = key then some v else JsObject.get rest key

/-- Index-keyed properties `0, 1, 2, ...` of an array-like value. -/
def indexed : Nat → List Json → List (String × Json)
  | _, [] => []
  | i, x :: xs => (toString i, x) :: indexed (i + 1) xs

/-- Own enumerable properties copied by object spread `...value`: nothing for
`null`, booleans and numbers, the index-keyed characters of a string, the
index-keyed elements of an array, the members of an object. -/
def ownEnumerableProperties : Json → List (String × Json)
  | Json.null => []
  | Json.bool _ => []
  | Json.num _ => []
  | Json.str s => indexed 0 (s.toList.map fun c => Json.str (String.singleton c))
  | Json.arr items => indexed 0 items
  | Json.obj members => members

/-- Object spread `{ ...target, ...source }` onto an already built target. -/
def spread (target : JsObject) (source : Json) : JsObject :=
  (ownEnumerableProperties source).foldl (fun o kv => JsObject.set o kv.1 kv.2) target

/-! ## The `Set` used for deduplication -/

/-- The method `Set.prototype.add` on the insertion-ordered element list. -/
def setAdd (s : List String) (x : String) : List String :=
  if x ∈ s then s else s ++ [x]

/-- The expression `[...new Set(matches)]`: every element is added in turn and the set is
read back in insertion order. -/
def newSet (xs : List String) : List String :=
  xs.foldl setAdd []

/-! ## External collaborators and observable state -/

/-- A compiled global regular expression, as the function listing all its
matches in a text from left to right. -/
structure RegExp where
  findAll : String → List String

/-- The call `text.match(regex)` for a global regex: `null` when nothing matches. -/
def stringMatch (text : String) (regex : RegExp) : Option (List String) :=
  if regex.findAll text = [] then none else some (regex.findAll text)

/-- Calls observable from outside the process. -/
inductive Event where
  | info (message : String) : Event
  | warning (message : String) : Event
  | setFailed (message : String) : Event
  | execSync (command : String) : Event
  | mkdirSync (path : String) : Event
  | writeFileSync (path : String) (content : String) : Event
  deriving DecidableEq, Repr

/-- Files and directories on disk plus the calls made so far. -/
structure World where
  files : List (String × String)
  dirs : List String
  log : List Event
  deriving DecidableEq, Repr

/-- Behaviour of everything the script calls but does not define. -/
structure Env where
  /-- The call `core.getInput(name, { required })`. -/
  getInput : String → Bool → Except String String
  /-- The call `JSON.parse(text)`. -/
  jsonParse : String → Except String Json
  /-- The call `new RegExp(source, 'g')`. -/
  newRegExp : String → Except String RegExp
  /-- The call `execSync(command).toString()`. -/
  execSync : String → Except String String
  /-- The call `nunjucks.renderString(template, context)` under the configured autoescape flag. -/
  renderString : Bool → String → JsObject → Except String String
  /-- The call `path.dirname(p)`. -/
  dirname : String → String
  /-- Outcome of `fs.mkdirSync(p, { recursive: true })`. -/
  mkdirSync : String → Except String Unit
  /-- Outcome of `fs.writeFileSync(p, content)`. -/
  writeFileSync : String → String → Except String Unit

/-- Append one call to the log. -/
def World.emit (w : World) (e : Event) : World :=
  { w with log := w.log ++ [e] }

/-- The call `fs.existsSync(p)`: true for a file or a directory. -/
def existsSync (w : World) (p : String) : Bool :=
  (w.files.lookup p).isSome || w.dirs.contains p

/-- The call `fs.readFileSync(p, 'utf8')`. -/
def readFileSync (w : World) (p : String) : Except String String :=
  match w.files.lookup p with
  | some content => .ok content
  | none =>
    if w.dirs.contains p then .error "EISDIR: illegal operation on a directory, read"
    else .error ("ENOENT: no such file or directory, open " ++ p)

/-! ## `extractTicketsFromGit` (lines 17-35) -/

/-- The command string of line 21. -/
def gitLogCommand (baseBranch releaseBranch : String) : String :=
  "git log " ++ baseBranch ++ ".." ++ releaseBranch ++ " --pretty=format:\"%s\""

/-- Extract ticket IDs from the commit subjects between two branches. -/
def extractTicketsFromGit (env : Env) (baseBranch releaseBranch ticketPattern : String)
    (w : World) : Except String (List String) × World :=
  let w := w.emit (.info ("Extracting tickets from commits in " ++ releaseBranch ++
    " that are not in " ++ baseBranch ++ "..."))
  let gitLogCommand := gitLogCommand baseBranch releaseBranch
  let w := w.emit (.info ("Executing: " ++ gitLogCommand))
  let w := w.emit (.execSync gitLogCommand)
  match env.execSync gitLogCommand with
  | .error e => (.error e, w)
  | .ok commitMessages =>
  match env.newRegExp ticketPattern with
  | .error e => (.error e, w)
  | .ok regex =>
  let matches_ := (stringMatch commitMessages regex).getD []
  let uniqueTickets := newSet matches_
  let w := w.emit (.info ("Extracted " ++ toString uniqueTickets.length ++ " unique ticket IDs"))
  (.ok uniqueTickets, w)

/-! ## `run` (lines 40-119) -/

/-- The nine input values read on lines 43-51. -/
structure Inputs where
  templateFile : String
  outputFile : String
  releaseVersion : String
  templateDataInput : String
  baseBranch : String
  releaseBranch : String
  ticketPattern : String
  gitUserName : String
  gitUserEmail : String
  deriving DecidableEq, Repr

/-- Lines 43-51: read the inputs in source order and apply the `||` defaults. -/
def getInputs (env : Env) : Except String Inputs := do
  let templateFile ← env.getInput "template-file" true
  let outputFile ← env.getInput "output-file" true
  let releaseVersion ← env.getInput "release-version" true
  let templateDataInput := strOr (← env.getInput "template-data" false) "\x7b\x7d"
  let baseBranch := strOr (← env.getInput "base-branch" false) "master"
  let releaseBranch ← env.getInput "release-branch" true
  let ticketPattern := strOr (← env.getInput "ticket-pattern" false) "[A-Z]+-[0-9]+"
  let gitUserName := strOr (← env.getInput "git-user-name" false) "GitHub Action"
  let gitUserEmail := strOr (← env.getInput "git-user-email" false) "action@github.com"
  return { templateFile, outputFile, releaseVersion, templateDataInput, baseBranch,
           releaseBranch, ticketPattern, gitUserName, gitUserEmail }

/-- Lines 54-60: parse the template data, rewording a parse error. -/
def parseTemplateData (env : Env) (templateDataInput : String) (w : World) :
    Except String Json × World :=
  match env.jsonParse templateDataInput with
  | .ok additionalTemplateData =>
    (.ok additionalTemplateData, w.emit (.info "Successfully parsed template data JSON"))
  | .error parseError =>
    (.error ("Invalid JSON in template-data input: " ++ parseError), w)

/-- Lines 80-84: the object literal `{ releaseVersion, tickets, ...additionalTemplateData }`. -/
def buildContext (releaseVersion : String) (tickets : List String)
    (additionalTemplateData : Json) : JsObject :=
  let o : JsObject := []
  let o := o.set "releaseVersion" (Json.str releaseVersion)
  let o := o.set "tickets" (Json.arr (tickets.map Json.str))
  spread o additionalTemplateData

/-- Lines 90-96: create the output directory when absent, then write the file. -/
def writeOutput (env : Env) (outputFile outputStr : String) (w : World) :
    Except String Unit × World :=
  let outputDir := env.dirname outputFile
  let made : Except String Unit × World :=
    if !existsSync w outputDir then
      let w := w.emit (.mkdirSync outputDir)
      match env.mkdirSync outputDir with
      | .error e => (.error e, w)
      | .ok () => (.ok (), { w with dirs := outputDir :: w.dirs })
    else (.ok (), w)
  match made with
  | (.error e, w) => (.error e, w)
  | (.ok (), w) =>
  let w := w.emit (.writeFileSync outputFile outputStr)
  match env.writeFileSync outputFile outputStr with
  | .error e => (.error e, w)
  | .ok () => (.ok (), { w with files := (outputFile, outputStr) :: w.files })

/-- The three commands of lines 103-110, in order. -/
def gitAddCommand (outputFile : String) : String :=
  "git add \"" ++ outputFile ++ "\""

/-- The commit command of line 107 with the message of line 106. -/
def gitCommitCommand (gitUserName gitUserEmail releaseVersion : String) : String :=
  "git -c user.name=\"" ++ gitUserName ++ "\" -c user.email=\"" ++ gitUserEmail ++
    "\" commit -m \"" ++ ("Add release notes for " ++ releaseVersion) ++ "\""

/-- The push command of line 110. -/
def gitPushCommand (releaseBranch : String) : String :=
  "git push origin " ++ releaseBranch

/-- Body of the inner `try` (lines 102-112): stage, commit, push. -/
def publishTry (env : Env) (i : Inputs) (w : World) : Except String Unit × World :=
  let w := w.emit (.execSync (gitAddCommand i.outputFile))
  match env.execSync (gitAddCommand i.outputFile) with
  | .error e => (.error e, w)
  | .ok _ =>
  let w := w.emit (.execSync (gitCommitCommand i.gitUserName i.gitUserEmail i.releaseVersion))
  match env.execSync (gitCommitCommand i.gitUserName i.gitUserEmail i.releaseVersion) with
  | .error e => (.error e, w)
  | .ok _ =>
  let w := w.emit (.execSync (gitPushCommand i.releaseBranch))
  match env.execSync (gitPushCommand i.releaseBranch) with
  | .error e => (.error e, w)
  | .ok _ =>
  (.ok (), w.emit (.info ("Successfully committed and pushed release notes to " ++
    i.releaseBranch)))

/-- Lines 101-115: the inner `try`/`catch`, a failure becomes a warning. -/
def publish (env : Env) (i : Inputs) (w : World) : World :=
  match publishTry env i w with
  | (.ok (), w) => w
  | (.error gitError, w) => w.emit (.warning ("Failed to commit/push changes: " ++ gitError))

/-- Lines 53-115 once the inputs are read: the rest of the outer `try` body. -/
def pipeline (env : Env) (i : Inputs) (w : World) : Except String Unit × World :=
  match parseTemplateData env i.templateDataInput w with
  | (.error e, w) => (.error e, w)
  | (.ok additionalTemplateData, w) =>
  if !existsSync w i.templateFile then
    (.ok (), w.emit (.info ("Template file not found: " ++ i.templateFile)))
  else
  match extractTicketsFromGit env i.baseBranch i.releaseBranch i.ticketPattern w with
  | (.error e, w) => (.error e, w)
  | (.ok tickets, w) =>
  let autoescape := false
  match readFileSync w i.templateFile with
  | .error e => (.error e, w)
  | .ok templateStr =>
  let context := buildContext i.releaseVersion tickets additionalTemplateData
  match env.renderString autoescape templateStr context with
  | .error e => (.error e, w)
  | .ok outputStr =>
  match writeOutput env i.outputFile outputStr w with
  | (.error e, w) => (.error e, w)
  | (.ok (), w) =>
  let w := w.emit (.info ("Release notes generated successfully: " ++ i.outputFile))
  (.ok (), publish env i w)

/-- Body of the outer `try` (lines 42-115). -/
def runTry (env : Env) (w : World) : Except String Unit × World :=
  match getInputs env with
  | .error e => (.error e, w)
  | .ok i => pipeline env i w

/-- The function `run`: the outer `try`/`catch` reports any error through `core.setFailed`. -/
def run (env : Env) (w : World) : World :=
  match runTry env w with
  | (.ok (), w) => w
  | (.error error, w) => w.emit (.setFailed ("Action failed with error: " ++ error))

/-! ## Specification-side definitions -/

/-- The spec's wording for the ticket sequence: the list with every later duplicate removed. -/
def removeLaterDuplicates : List String → List String
  | [] => []
  | x :: xs => x :: (removeLaterDuplicates xs).filter (fun y => y ≠ x)

/-- A call reporting failure through the CI failure channel. -/
def Event.isFailure : Event → Bool
  | .setFailed _ => true
  | _ => false

/-- A call running an external (version-control) command. -/
def Event.isCommand : Event → Bool
  | .execSync _ => true
  | _ => false

/-- A call creating a directory or writing a file. -/
def Event.isFsWrite : Event → Bool
  | .mkdirSync _ => true
  | .writeFileSync _ _ => true
  | _ => false

/-! ## A concrete environment for evaluating the model

`coreGetInput` follows `getInput` of `@actions/core`; `sampleRegExp` is a
backtracking matcher for the fragment of regular expressions made of literal
characters and bracket classes of ranges, each optionally followed by `*`,
`+` or `?`, driven by the global-match loop of `String.prototype.match`.
The general theorems quantify over an arbitrary `Env`; the sample environment
only serves to evaluate the model on concrete runs, all of them with patterns
of the fragment. -/

/-- Whitespace removed by `trim` (ASCII part). -/
def isSpace (c : Char) : Bool :=
  c = ' ' || c = '\t' || c = '\n' || c = '\r'

/-- The method `String.prototype.trim`. -/
def trim (s : String) : String :=
  String.mk ((s.toList.dropWhile isSpace).reverse.dropWhile isSpace).reverse

/-- The function `getInput` of `@actions/core` over a table of supplied inputs. -/
def coreGetInput (supplied : List (String × String)) (name : String) (required : Bool) :
    Except String String :=
  let val := strOr ((supplied.lookup name).getD "") ""
  if required && val = "" then .error ("Input required and not supplied: " ++ name)
  else .ok (trim val)

/-- A literal character or a bracket class given by its ranges. -/
inductive Atom where
  | lit (c : Char) : Atom
  | cls (ranges : List (Char × Char)) : Atom
  deriving DecidableEq, Repr

/-- Quantifiers of the fragment. -/
inductive Quant where
  | one : Quant
  | opt : Quant
  | star : Quant
  | plus : Quant
  deriving DecidableEq, Repr

/-- A quantified atom. -/
structure Item where
  atom : Atom
  quant : Quant
  deriving DecidableEq, Repr

/-- Whether the atom accepts a character. -/
def Atom.accepts : Atom → Char → Bool
  | .lit c, x => x = c
  | .cls ranges, x => ranges.any fun r => r.1.toNat ≤ x.toNat && x.toNat ≤ r.2.toNat

/-- Fewest repetitions a quantifier allows. -/
def Quant.least : Quant → Nat
  | .one => 1
  | .opt => 0
  | .star => 0
  | .plus => 1

/-- Cap a run length by the most repetitions a quantifier allows. -/
def Quant.cap : Quant → Nat → Nat
  | .one, n => min 1 n
  | .opt, n => min 1 n
  | .star, n => n
  | .plus, n => n

/-- Length of the longest run of accepted characters at the front. -/
def runLength (a : Atom) : List Char → Nat
  | [] => 0
  | c :: cs => if a.accepts c then runLength a cs + 1 else 0

/-- Length of the match of the items at the front of the text, greedy with backtracking. -/
def matchItems : List Item → List Char → Option Nat
  | [], _ => some 0
  | it :: rest, cs =>
    let most := it.quant.cap (runLength it.atom cs)
    ((List.range (most + 1)).reverse.filter (fun k => it.quant.least ≤ k)).findSome? fun k =>
      (matchItems rest (cs.drop k)).map (fun n => k + n)

/-- First position at or after the front where the items match, with the match length. -/
def search (items : List Item) : List Char → Option (Nat × Nat)
  | [] => (matchItems items []).map fun n => (0, n)
  | c :: cs =>
    match matchItems items (c :: cs) with
    | some n => some (0, n)
    | none => (search items cs).map fun p => (p.1 + 1, p.2)

/-- The global-match loop: collect each match, then resume after it, stepping one
character forward after an empty match. -/
def globalMatches (items : List Item) : Nat → List Char → List String
  | 0, _ => []
  | fuel + 1, cs =>
    match search items cs with
    | none => []
    | some (at_, n) =>
      String.mk ((cs.drop at_).take n) ::
        (if n = 0 then
          match cs.drop at_ with
          | [] => []
          | _ :: tl => globalMatches items fuel tl
        else globalMatches items fuel (cs.drop (at_ + n)))

/-- Reason recorded for a pattern that lies outside the fragment, whether JavaScript
accepts it or not: the sample engine does not compile it. -/
def notModelled : String :=
  "outside the modelled fragment"

/-- Ranges of a bracket class up to the closing bracket, with the remaining pattern. -/
def parseClass : Nat → List Char → List (Char × Char) →
    Except String (List (Char × Char) × List Char)
  | 0, _, _ => .error "Unterminated character class"
  | _ + 1, [], _ => .error "Unterminated character class"
  | fuel + 1, c :: rest, acc =>
    if c = ']' then .ok (acc.reverse, rest)
    else if c = '\\' then .error notModelled
    else
      match rest with
      | '-' :: b :: rest2 =>
        if b = ']' then .ok ((('-', '-') :: (c, c) :: acc).reverse, rest2)
        else if b = '\\' then .error notModelled
        else parseClass fuel rest2 ((c, b) :: acc)
      | _ => parseClass fuel rest ((c, c) :: acc)

/-- An optional greedy quantifier at the front of the pattern. -/
def parseQuant : List Char → Quant × List Char
  | '*' :: rest => (.star, rest)
  | '+' :: rest => (.plus, rest)
  | '?' :: rest => (.opt, rest)
  | rest => (.one, rest)

/-- Pattern characters whose meaning lies outside the fragment. -/
def outsideFragment : List Char :=
  "()|\\.^$\x7b\x7d]".toList

/-- Whether a lazy mark `?` follows a quantifier, which the fragment leaves out. -/
def lazyMark (rest : List Char) : Bool :=
  (parseQuant rest).1 ≠ .one && (parseQuant rest).2.head? = some '?'

/-- Parse a pattern of the fragment, the error being the reason of the `SyntaxError`. -/
def parseItems : Nat → List Char → Except String (List Item)
  | 0, _ => .ok []
  | _ + 1, [] => .ok []
  | fuel + 1, c :: rest =>
    if c = '*' || c = '+' || c = '?' then .error "Nothing to repeat"
    else if c ∈ outsideFragment then .error notModelled
    else if c = '[' then
      if rest.head? = some '^' then .error notModelled
      else
      match parseClass (rest.length + 1) rest [] with
      | .error reason => .error reason
      | .ok (ranges, rest) =>
        if ranges.any (fun r => r.2.toNat < r.1.toNat) then
          .error "Range out of order in character class"
        else if lazyMark rest then .error notModelled
        else
          (parseItems fuel (parseQuant rest).2).map fun items =>
            { atom := .cls ranges, quant := (parseQuant rest).1 } :: items
    else if lazyMark rest then .error notModelled
    else
      (parseItems fuel (parseQuant rest).2).map fun items =>
        { atom := .lit c, quant := (parseQuant rest).1 } :: items

/-- The constructor `new RegExp(source, 'g')` on the fragment. -/
def sampleRegExp (source : String) : Except String RegExp :=
  match parseItems (source.length + 1) source.toList with
  | .error reason =>
    if reason = notModelled then .error ("RegExp /" ++ source ++ "/g is " ++ notModelled)
    else .error ("Invalid regular expression: /" ++ source ++ "/g: " ++ reason)
  | .ok items =>
    .ok { findAll := fun text => globalMatches items (text.length + 1) text.toList }

/-- The renderer's answer on the template
`Version: {{ releaseVersion }}, Tickets: {{ tickets | join(', ') }}`. -/
def sampleRender (_template : String) (context : JsObject) : Except String String :=
  let text : Option Json → String := fun v =>
    match v with
    | some (.str s) => s
    | some (.arr items) =>
      ", ".intercalate (items.map fun x => match x with
        | .str s => s
        | _ => "")
    | _ => ""
  .ok ("Version: " ++ text (context.get "releaseVersion") ++ ", Tickets: " ++
    text (context.get "tickets"))

/-- The answers of `git` in the sample run: the log query returns `log`, the command
`failing` (if any) fails, every other command succeeds silently. -/
def sampleGit (log : String) (failing : Option String) (command : String) :
    Except String String :=
  if some command = failing then .error ("Command failed: " ++ command)
  else if command = gitLogCommand "master" "release/1.2.0" then .ok log
  else .ok ""

/-- The environment of a sample CI run: the supplied inputs, the outcome of parsing the
template data, the answers of `git` and the outcomes of rendering and of writing.  The
call `path.dirname` answers `docs`, the directory of the sample output file. -/
def sampleEnv (supplied : List (String × String)) (parsed : Except String Json)
    (git : String → Except String String)
    (render : String → JsObject → Except String String)
    (write : Except String Unit) : Env where
  getInput := coreGetInput supplied
  jsonParse := fun _ => parsed
  newRegExp := sampleRegExp
  execSync := git
  renderString := fun _ => render
  dirname := fun _ => "docs"
  mkdirSync := fun _ => .ok ()
  writeFileSync := fun _ _ => write

/-- Inputs supplied in the sample run, the optional ones left out. -/
def sampleInputs : List (String × String) :=
  [("template-file", "templates/notes.njk"), ("output-file", "docs/notes.md"),
   ("release-version", "1.2.0"), ("release-branch", "release/1.2.0")]

/-- The commit subjects of the sample release branch. -/
def sampleLog : String :=
  "PROJ-2: add feature\nmerge"

/-- The checkout of the sample run, holding the template. -/
def sampleWorld : World :=
  { files := [("templates/notes.njk",
      "Version: \x7b\x7b releaseVersion \x7d\x7d, Tickets: \x7b\x7b tickets | join(', ') \x7d\x7d")],
    dirs := ["templates"], log := [] }

/-- The checkout of the sample run without the template. -/
def emptyWorld : World :=
  { files := [], dirs := [], log := [] }

/-- The fatal conditions of a run with inputs `i` started in world `w`, each with the
message of the underlying error: invalid JSON in the template data, an invalid ticket
pattern, a rendering error, and a filesystem error while creating the output directory or
writing the output file. -/
inductive FatalCondition (env : Env) (w : World) (i : Inputs) : String → Prop where
  | invalidJson (msg : String)
      (hparse : env.jsonParse i.templateDataInput = .error msg) :
      FatalCondition env w i msg
  | invalidPattern (msg : String) (extra : Json) (commitMessages : String)
      (hparse : env.jsonParse i.templateDataInput = .ok extra)
      (hexists : existsSync w i.templateFile = true)
      (hlog : env.execSync (gitLogCommand i.baseBranch i.releaseBranch) = .ok commitMessages)
      (hre : env.newRegExp i.ticketPattern = .error msg) :
      FatalCondition env w i msg
  | renderError (msg : String) (extra : Json) (commitMessages : String) (regex : RegExp)
      (templateStr : String)
      (hparse : env.jsonParse i.templateDataInput = .ok extra)
      (hread : readFileSync w i.templateFile = .ok templateStr)
      (hlog : env.execSync (gitLogCommand i.baseBranch i.releaseBranch) = .ok commitMessages)
      (hre : env.newRegExp i.ticketPattern = .ok regex)
      (hrender : env.renderString false templateStr (buildContext i.releaseVersion
        (removeLaterDuplicates (regex.findAll commitMessages)) extra) = .error msg) :
      FatalCondition env w i msg
  | mkdirError (msg : String) (extra : Json) (commitMessages : String) (regex : RegExp)
      (templateStr outputStr : String)
      (hparse : env.jsonParse i.templateDataInput = .ok extra)
      (hread : readFileSync w i.templateFile = .ok templateStr)
      (hlog : env.execSync (gitLogCommand i.baseBranch i.releaseBranch) = .ok commitMessages)
      (hre : env.newRegExp i.ticketPattern = .ok regex)
      (hrender : env.renderString false templateStr (buildContext i.releaseVersion
        (removeLaterDuplicates (regex.findAll commitMessages)) extra) = .ok outputStr)
      (hnodir : existsSync w (env.dirname i.outputFile) = false)
      (hmkdir : env.mkdirSync (env.dirname i.outputFile) = .error msg) :
      FatalCondition env w i msg
  | writeError (msg : String) (extra : Json) (commitMessages : String) (regex : RegExp)
      (templateStr outputStr : String)
      (hparse : env.jsonParse i.templateDataInput = .ok extra)
      (hread : readFileSync w i.templateFile = .ok templateStr)
      (hlog : env.execSync (gitLogCommand i.baseBranch i.releaseBranch) = .ok commitMessages)
      (hre : env.newRegExp i.ticketPattern = .ok regex)
      (hrender : env.renderString false templateStr (buildContext i.releaseVersion
        (removeLaterDuplicates (regex.findAll commitMessages)) extra) = .ok outputStr)
      (hdir : existsSync w (env.dirname i.outputFile) = true ∨
        env.mkdirSync (env.dirname i.outputFile) = .ok ())
      (hwrite : env.writeFileSync i.outputFile outputStr = .error msg) :
      FatalCondition env w i msg

/-- The two leading texts a failure report can have. -/
def failureLeads : List String :=
  ["Action failed with error: ", "Action failed with error: Invalid JSON in template-data input: "]

/-- The default ticket pattern `[A-Z]+-[0-9]+` compiled by the sample engine. -/
def defaultRegExp : RegExp :=
  { findAll := fun text => globalMatches
      [{ atom := .cls [('A', 'Z')], quant := .plus }, { atom := .lit '-', quant := .one },
       { atom := .cls [('0', '9')], quant := .plus }] (text.length + 1) text.toList }

/-- The pattern `[A-Z]*` compiled by the sample engine. -/
def starRegExp : RegExp :=
  { findAll := fun text => globalMatches
      [{ atom := .cls [('A', 'Z')], quant := .star }] (text.length + 1) text.toList }

/-- A release branch whose commits mention one ticket twice. -/
def repeatingLog : String :=
  "PROJ-2: add feature\nAB-12 fix typo\nPROJ-2 follow-up\nmerge"

/-- The sample run with every optional input left out and every step succeeding. -/
def plainEnv : Env :=
  sampleEnv sampleInputs (.ok (.obj [])) (sampleGit sampleLog none) sampleRender (.ok ())

/-- The sample run over the branch that mentions one ticket twice. -/
def repeatingEnv : Env :=
  sampleEnv sampleInputs (.ok (.obj [])) (sampleGit repeatingLog none) sampleRender (.ok ())

/-- The sample run over a release branch without commits. -/
def emptyLogEnv : Env :=
  sampleEnv sampleInputs (.ok (.obj [])) (sampleGit "" none) sampleRender (.ok ())

/-- The sample run whose template data does not parse. -/
def badJsonEnv : Env :=
  sampleEnv (("template-data", "not json") :: sampleInputs)
    (.error "Unexpected token 'o', \"not json\" is not valid JSON")
    (sampleGit sampleLog none) sampleRender (.ok ())

/-- The sample run with an unterminated bracket class as ticket pattern. -/
def badPatternEnv : Env :=
  sampleEnv (("ticket-pattern", "[A-Z") :: sampleInputs) (.ok (.obj []))
    (sampleGit sampleLog none) sampleRender (.ok ())

/-- The sample run whose template fails to render. -/
def badTemplateEnv : Env :=
  sampleEnv sampleInputs (.ok (.obj [])) (sampleGit sampleLog none)
    (fun _ _ => .error "(unknown path)\n  Error: filter not found: jion") (.ok ())

/-- The sample run whose output file cannot be written. -/
def readOnlyEnv : Env :=
  sampleEnv sampleInputs (.ok (.obj [])) (sampleGit sampleLog none) sampleRender
    (.error "EACCES: permission denied, open docs/notes.md")

/-- The sample run whose push is rejected. -/
def pushRejectedEnv : Env :=
  sampleEnv sampleInputs (.ok (.obj []))
    (sampleGit sampleLog (some (gitPushCommand "release/1.2.0"))) sampleRender (.ok ())

/-- The sample run with a base branch supplied and with template data
`{"releaseVersion":"9.9.9"}`, which names `releaseVersion`. -/
def overridingEnv : Env :=
  sampleEnv (("base-branch", "main") ::
      ("template-data", "\x7b\"releaseVersion\":\"9.9.9\"\x7d") :: sampleInputs)
    (.ok (.obj [("releaseVersion", .str "9.9.9")]))
    (fun command => if command = gitLogCommand "main" "release/1.2.0" then .ok sampleLog
      else .ok "")
    sampleRender (.ok ())

/-- The sample run that supplies `base-branch` and `git-user-name` and leaves the other
optional inputs out. -/
def mainBranchEnv : Env :=
  sampleEnv (("base-branch", "main") :: ("git-user-name", "Release Bot") :: sampleInputs)
    (.ok (.obj []))
    (fun command => if command = gitLogCommand "main" "release/1.2.0" then .ok sampleLog
      else .ok "")
    sampleRender (.ok ())

/-- The inputs resolved in the run of `mainBranchEnv`. -/
def mainBranchInputs : Inputs :=
  { templateFile := "templates/notes.njk", outputFile := "docs/notes.md",
    releaseVersion := "1.2.0", templateDataInput := "\x7b\x7d", baseBranch := "main",
    releaseBranch := "release/1.2.0", ticketPattern := "[A-Z]+-[0-9]+",
    gitUserName := "Release Bot", gitUserEmail := "action@github.com" }

/-! ## Deduplication lemmas -/

theorem foldl_setAdd (xs acc : List String) :
    xs.foldl setAdd acc = acc ++ (removeLaterDuplicates xs).filter (fun y => y ∉ acc) := by
  induction xs generalizing acc with
  | nil => simp [removeLaterDuplicates]
  | cons x xs ih =>
    rw [List.foldl_cons, ih]
    by_cases hx : x ∈ acc
    · simp only [setAdd, hx, if_true, removeLaterDuplicates, List.filter_cons, List.filter_filter]
      simp only [decide_not, decide_True, Bool.not_true, Bool.false_eq_true, if_false]
      congr 1
      apply List.filter_congr
      intro y _
      by_cases hy : y ∈ acc
      · simp [hy]
      · have : y ≠ x := fun h => hy (h ▸ hx)
        simp [hy, this]
    · simp only [setAdd, hx, if_false, removeLaterDuplicates, List.filter_cons, List.filter_filter]
      simp only [decide_not, decide_False, Bool.not_false, if_true, List.append_assoc,
        List.singleton_append]
      congr 2
      apply List.filter_congr
      intro y _
      by_cases hy : y ∈ acc <;> by_cases hyx : y = x <;> simp [hy, hyx]

theorem newSet_eq (xs : List String) : newSet xs = removeLaterDuplicates xs := by
  simp [newSet, foldl_setAdd]

theorem mem_removeLaterDuplicates (xs : List String) (t : String) :
    t ∈ removeLaterDuplicates xs ↔ t ∈ xs := by
  induction xs with
  | nil => simp [removeLaterDuplicates]
  | cons x xs ih =>
    by_cases h : t = x <;> simp [removeLaterDuplicates, List.mem_filter, ih, h]

theorem nodup_removeLaterDuplicates (xs : List String) : (removeLaterDuplicates xs).Nodup := by
  induction xs with
  | nil => simp [removeLaterDuplicates]
  | cons x xs ih =>
    simp only [removeLaterDuplicates, List.nodup_cons, List.mem_filter]
    exact ⟨by simp, ih.filter _⟩

theorem indexOf_filter_lt (p : String → Bool) (l : List String) (a b : String)
    (ha : p a = true) (hb : p b = true) :
    List.indexOf a (l.filter p) < List.indexOf b (l.filter p) ↔
      List.indexOf a l < List.indexOf b l := by
  induction l with
  | nil => simp
  | cons x t ih =>
    by_cases hx : p x = true
    · rw [List.filter_cons_of_pos hx]
      by_cases hxa : x = a <;> by_cases hxb : x = b
      · simp [List.indexOf_cons_eq _ hxa, List.indexOf_cons_eq _ hxb]
      · simp [List.indexOf_cons_eq _ hxa, List.indexOf_cons_ne _ hxb]
      · simp [List.indexOf_cons_ne _ hxa, List.indexOf_cons_eq _ hxb]
      · simp [List.indexOf_cons_ne _ hxa, List.indexOf_cons_ne _ hxb, ih]
    · have hxa : x ≠ a := fun h => hx (h ▸ ha)
      have hxb : x ≠ b := fun h => hx (h ▸ hb)
      rw [List.filter_cons_of_neg hx]
      simp [List.indexOf_cons_ne _ hxa, List.indexOf_cons_ne _ hxb, ih]

theorem indexOf_removeLaterDuplicates (xs : List String) (a b : String) :
    List.indexOf a (removeLaterDuplicates xs) < List.indexOf b (removeLaterDuplicates xs) ↔
      List.indexOf a xs < List.indexOf b xs := by
  induction xs with
  | nil => simp [removeLaterDuplicates]
  | cons x t ih =>
    simp only [removeLaterDuplicates]
    by_cases hxa : x = a <;> by_cases hxb : x = b
    · simp [List.indexOf_cons_eq _ hxa, List.indexOf_cons_eq _ hxb]
    · simp [List.indexOf_cons_eq _ hxa, List.indexOf_cons_ne _ hxb]
    · simp [List.indexOf_cons_ne _ hxa, List.indexOf_cons_eq _ hxb]
    · simp only [List.indexOf_cons_ne _ hxa, List.indexOf_cons_ne _ hxb, Nat.succ_lt_succ_iff]
      rw [indexOf_filter_lt _ _ a b (by simpa using Ne.symm hxa) (by simpa using Ne.symm hxb)]
      exact ih

theorem tickets_eq (text : String) (regex : RegExp) :
    newSet ((stringMatch text regex).getD []) = removeLaterDuplicates (regex.findAll text) := by
  rw [newSet_eq, stringMatch]
  by_cases h : regex.findAll text = []
  · simp [h]
  · simp [h]

/-! ## Frame lemmas -/

@[simp]
theorem emit_files (w : World) (e : Event) : (w.emit e).files = w.files := rfl

@[simp]
theorem emit_dirs (w : World) (e : Event) : (w.emit e).dirs = w.dirs := rfl

@[simp]
theorem emit_log (w : World) (e : Event) : (w.emit e).log = w.log ++ [e] := rfl

@[simp]
theorem existsSync_emit (w : World) (e : Event) (p : String) :
    existsSync (w.emit e) p = existsSync w p := rfl

@[simp]
theorem readFileSync_emit (w : World) (e : Event) (p : String) :
    readFileSync (w.emit e) p = readFileSync w p := rfl

theorem existsSync_of_readFileSync {w : World} {p content : String}
    (h : readFileSync w p = .ok content) : existsSync w p = true := by
  cases hl : w.files.lookup p with
  | some c => simp [existsSync, hl]
  | none =>
    simp only [readFileSync, hl] at h
    split at h <;> simp at h

theorem getInputs_ok {env : Env} {i : Inputs} (h : getInputs env = .ok i) :
    ∃ td bb tp un ue,
      env.getInput "template-file" true = .ok i.templateFile ∧
      env.getInput "output-file" true = .ok i.outputFile ∧
      env.getInput "release-version" true = .ok i.releaseVersion ∧
      env.getInput "template-data" false = .ok td ∧
      env.getInput "base-branch" false = .ok bb ∧
      env.getInput "release-branch" true = .ok i.releaseBranch ∧
      env.getInput "ticket-pattern" false = .ok tp ∧
      env.getInput "git-user-name" false = .ok un ∧
      env.getInput "git-user-email" false = .ok ue ∧
      i.templateDataInput = strOr td "\x7b\x7d" ∧
      i.baseBranch = strOr bb "master" ∧
      i.ticketPattern = strOr tp "[A-Z]+-[0-9]+" ∧
      i.gitUserName = strOr un "GitHub Action" ∧
      i.gitUserEmail = strOr ue "action@github.com" := by
  unfold getInputs at h
  cases h1 : env.getInput "template-file" true <;> simp [h1, bind, Except.bind] at h
  cases h2 : env.getInput "output-file" true <;> simp [h2] at h
  cases h3 : env.getInput "release-version" true <;> simp [h3] at h
  cases h4 : env.getInput "template-data" false <;> simp [h4] at h
  cases h5 : env.getInput "base-branch" false <;> simp [h5] at h
  cases h6 : env.getInput "release-branch" true <;> simp [h6] at h
  cases h7 : env.getInput "ticket-pattern" false <;> simp [h7] at h
  cases h8 : env.getInput "git-user-name" false <;> simp [h8] at h
  cases h9 : env.getInput "git-user-email" false <;> simp [h9] at h
  simp [pure, Except.pure] at h
  subst h
  exact ⟨_, _, _, _, _, rfl, rfl, rfl, rfl, rfl, rfl, rfl, rfl, rfl, rfl, rfl, rfl, rfl, rfl⟩

theorem extractTicketsFromGit_ok (env : Env) (baseBranch releaseBranch ticketPattern : String)
    (w : World) (commitMessages : String) (regex : RegExp)
    (hlog : env.execSync (gitLogCommand baseBranch releaseBranch) = .ok commitMessages)
    (hre : env.newRegExp ticketPattern = .ok regex) :
    (extractTicketsFromGit env baseBranch releaseBranch ticketPattern w).1 =
      .ok (removeLaterDuplicates (regex.findAll commitMessages)) := by
  simp only [extractTicketsFromGit, hlog, hre, tickets_eq]

theorem run_of_error {env : Env} {w : World} {e : String} (h : (runTry env w).1 = .error e) :
    run env w = (runTry env w).2.emit (.setFailed ("Action failed with error: " ++ e)) := by
  unfold run
  cases hr : runTry env w with
  | mk r w1 =>
    rw [hr] at h
    cases r with
    | error e1 => cases h; rfl
    | ok u => cases h

theorem run_of_ok {env : Env} {w : World} (h : (runTry env w).1 = .ok ()) :
    run env w = (runTry env w).2 := by
  unfold run
  cases hr : runTry env w with
  | mk r w1 =>
    rw [hr] at h
    cases r with
    | error e1 => cases h
    | ok u => rfl

theorem publish_failed (env : Env) (i : Inputs) (w : World) (gitError : String)
    (hpublish : env.execSync (gitAddCommand i.outputFile) = .error gitError ∨
      ((∃ o, env.execSync (gitAddCommand i.outputFile) = .ok o) ∧
        env.execSync (gitCommitCommand i.gitUserName i.gitUserEmail i.releaseVersion) =
          .error gitError) ∨
      ((∃ o, env.execSync (gitAddCommand i.outputFile) = .ok o) ∧
        (∃ o, env.execSync (gitCommitCommand i.gitUserName i.gitUserEmail i.releaseVersion) =
          .ok o) ∧
        env.execSync (gitPushCommand i.releaseBranch) = .error gitError)) :
    (publish env i w).files = w.files ∧
      ∃ evs, (publish env i w).log = w.log ++ evs ∧
        evs.all (fun e => !e.isFailure) = true ∧
        evs.getLast? = some (Event.warning ("Failed to commit/push changes: " ++ gitError)) := by
  refine ⟨?_, (publish env i w).log.drop w.log.length, ?_⟩
  · rcases hpublish with ha | ⟨⟨oa, ha⟩, hc⟩ | ⟨⟨oa, ha⟩, ⟨oc, hc⟩, hp⟩
    · simp [publish, publishTry, ha]
    · simp [publish, publishTry, ha, hc]
    · simp [publish, publishTry, ha, hc, hp]
  · rcases hpublish with ha | ⟨⟨oa, ha⟩, hc⟩ | ⟨⟨oa, ha⟩, ⟨oc, hc⟩, hp⟩
    · simp [publish, publishTry, ha, Event.isFailure]
    · simp [publish, publishTry, ha, hc, Event.isFailure]
    · simp [publish, publishTry, ha, hc, hp, Event.isFailure]

theorem pipeline_written (env : Env) (w : World) (i : Inputs) (extra : Json)
    (commitMessages : String) (regex : RegExp) (templateStr outputStr : String)
    (hparse : env.jsonParse i.templateDataInput = .ok extra)
    (hread : readFileSync w i.templateFile = .ok templateStr)
    (hlog : env.execSync (gitLogCommand i.baseBranch i.releaseBranch) = .ok commitMessages)
    (hre : env.newRegExp i.ticketPattern = .ok regex)
    (hrender : env.renderString false templateStr (buildContext i.releaseVersion
      (removeLaterDuplicates (regex.findAll commitMessages)) extra) = .ok outputStr)
    (hdir : existsSync w (env.dirname i.outputFile) = true ∨
      env.mkdirSync (env.dirname i.outputFile) = .ok ())
    (hwrite : env.writeFileSync i.outputFile outputStr = .ok ()) :
    ∃ w1, pipeline env i w = (.ok (), publish env i w1) ∧
      w1.files = (i.outputFile, outputStr) :: w.files ∧
      ∃ evs, w1.log = w.log ++ evs ∧ evs.all (fun e => !e.isFailure) = true := by
  have hex := existsSync_of_readFileSync hread
  refine ⟨((writeOutput env i.outputFile outputStr (extractTicketsFromGit env i.baseBranch
    i.releaseBranch i.ticketPattern (w.emit (.info "Successfully parsed template data JSON"))).2).2).emit
      (.info ("Release notes generated successfully: " ++ i.outputFile)), ?_, ?_,
    List.drop w.log.length (((writeOutput env i.outputFile outputStr (extractTicketsFromGit env
      i.baseBranch i.releaseBranch i.ticketPattern (w.emit (.info
        "Successfully parsed template data JSON"))).2).2).emit
      (.info ("Release notes generated successfully: " ++ i.outputFile))).log, ?_⟩
  · simp only [pipeline, parseTemplateData, hparse, existsSync_emit, hex]
    simp only [extractTicketsFromGit, hlog, hre, tickets_eq, readFileSync_emit, hread, hrender]
    simp only [writeOutput, existsSync_emit, hwrite]
    by_cases hd : existsSync w (env.dirname i.outputFile) = true
    · simp [hd, hwrite]
    · have hm := hdir.resolve_left hd
      simp [hd, hm, hwrite]
  · simp only [extractTicketsFromGit, hlog, hre, writeOutput, existsSync_emit, hwrite]
    by_cases hd : existsSync w (env.dirname i.outputFile) = true
    · simp [hd, hwrite]
    · have hm := hdir.resolve_left hd
      simp [hd, hm, hwrite]
  · simp only [extractTicketsFromGit, hlog, hre, writeOutput, existsSync_emit, hwrite]
    by_cases hd : existsSync w (env.dirname i.outputFile) = true
    · simp [hd, hwrite, Event.isFailure]
    · have hm := hdir.resolve_left hd
      simp [hd, hm, hwrite, Event.isFailure]

theorem pipeline_written_log (env : Env) (w : World) (i : Inputs) (extra : Json)
    (commitMessages : String) (regex : RegExp) (templateStr outputStr : String)
    (hparse : env.jsonParse i.templateDataInput = .ok extra)
    (hread : readFileSync w i.templateFile = .ok templateStr)
    (hlog : env.execSync (gitLogCommand i.baseBranch i.releaseBranch) = .ok commitMessages)
    (hre : env.newRegExp i.ticketPattern = .ok regex)
    (hrender : env.renderString false templateStr (buildContext i.releaseVersion
      (removeLaterDuplicates (regex.findAll commitMessages)) extra) = .ok outputStr)
    (hdir : existsSync w (env.dirname i.outputFile) = true ∨
      env.mkdirSync (env.dirname i.outputFile) = .ok ())
    (hwrite : env.writeFileSync i.outputFile outputStr = .ok ()) :
    ∃ w1, pipeline env i w = (.ok (), publish env i w1) ∧
      w1.files = (i.outputFile, outputStr) :: w.files ∧
      w1.log = w.log ++
        [Event.info "Successfully parsed template data JSON",
         Event.info ("Extracting tickets from commits in " ++ i.releaseBranch ++
           " that are not in " ++ i.baseBranch ++ "..."),
         Event.info ("Executing: " ++ gitLogCommand i.baseBranch i.releaseBranch),
         Event.execSync (gitLogCommand i.baseBranch i.releaseBranch),
         Event.info ("Extracted " ++
           toString (removeLaterDuplicates (regex.findAll commitMessages)).length ++
           " unique ticket IDs")] ++
        (if existsSync w (env.dirname i.outputFile) = true then []
          else [Event.mkdirSync (env.dirname i.outputFile)]) ++
        [Event.writeFileSync i.outputFile outputStr,
         Event.info ("Release notes generated successfully: " ++ i.outputFile)] := by
  have hex := existsSync_of_readFileSync hread
  refine ⟨((writeOutput env i.outputFile outputStr (extractTicketsFromGit env i.baseBranch
    i.releaseBranch i.ticketPattern (w.emit (.info "Successfully parsed template data JSON"))).2).2).emit
      (.info ("Release notes generated successfully: " ++ i.outputFile)), ?_, ?_, ?_⟩
  · simp only [pipeline, parseTemplateData, hparse, existsSync_emit, hex]
    simp only [extractTicketsFromGit, hlog, hre, tickets_eq, readFileSync_emit, hread, hrender]
    simp only [writeOutput, existsSync_emit, hwrite]
    by_cases hd : existsSync w (env.dirname i.outputFile) = true
    · simp [hd, hwrite]
    · have hm := hdir.resolve_left hd
      simp [hd, hm, hwrite]
  · simp only [extractTicketsFromGit, hlog, hre, writeOutput, existsSync_emit, hwrite]
    by_cases hd : existsSync w (env.dirname i.outputFile) = true
    · simp [hd, hwrite]
    · have hm := hdir.resolve_left hd
      simp [hd, hm, hwrite]
  · simp only [extractTicketsFromGit, hlog, hre, tickets_eq, writeOutput, existsSync_emit, hwrite]
    by_cases hd : existsSync w (env.dirname i.outputFile) = true
    · simp [hd, hwrite]
    · have hm := hdir.resolve_left hd
      simp [hd, hm, hwrite]

theorem publish_staged (env : Env) (i : Inputs) (w : World) (staged : String)
    (hadd : env.execSync (gitAddCommand i.outputFile) = .ok staged) :
    (publish env i w).files = w.files ∧
      ∃ rest, (publish env i w).log = w.log ++
        [Event.execSync (gitAddCommand i.outputFile),
         Event.execSync (gitCommitCommand i.gitUserName i.gitUserEmail i.releaseVersion)] ++
        rest := by
  cases hc : env.execSync (gitCommitCommand i.gitUserName i.gitUserEmail i.releaseVersion) with
  | error e =>
    exact ⟨by simp [publish, publishTry, hadd, hc],
      [Event.warning ("Failed to commit/push changes: " ++ e)],
      by simp [publish, publishTry, hadd, hc]⟩
  | ok committed =>
    cases hp : env.execSync (gitPushCommand i.releaseBranch) with
    | error e =>
      exact ⟨by simp [publish, publishTry, hadd, hc, hp],
        [Event.execSync (gitPushCommand i.releaseBranch),
         Event.warning ("Failed to commit/push changes: " ++ e)],
        by simp [publish, publishTry, hadd, hc, hp]⟩
    | ok pushed =>
      exact ⟨by simp [publish, publishTry, hadd, hc, hp],
        [Event.execSync (gitPushCommand i.releaseBranch),
         Event.info ("Successfully committed and pushed release notes to " ++
           i.releaseBranch)],
        by simp [publish, publishTry, hadd, hc, hp]⟩

theorem get_set_self (o : JsObject) (k : String) (v : Json) : (o.set k v).get k = some v := by
  induction o with
  | nil => simp [JsObject.set, JsObject.get]
  | cons kv rest ih =>
    obtain ⟨k1, v1⟩ := kv
    by_cases h : k1 = k <;> simp [JsObject.set, JsObject.get, h, ih]

theorem get_set_ne (o : JsObject) (k k1 : String) (v : Json) (h : k ≠ k1) :
    (o.set k v).get k1 = o.get k1 := by
  induction o with
  | nil => simp [JsObject.set, JsObject.get, h]
  | cons kv rest ih =>
    obtain ⟨k2, v2⟩ := kv
    by_cases h2 : k2 = k
    · subst h2; simp [JsObject.set, JsObject.get, h]
    · by_cases h3 : k2 = k1
      · subst h3; simp [JsObject.set, JsObject.get, h2]
      · simp [JsObject.set, JsObject.get, h2, h3, ih]

theorem get_foldl_set_absent (props : List (String × Json)) (o : JsObject) (k : String)
    (h : ∀ kv ∈ props, kv.1 ≠ k) :
    (props.foldl (fun o kv => JsObject.set o kv.1 kv.2) o).get k = o.get k := by
  induction props generalizing o with
  | nil => rfl
  | cons kv rest ih =>
    rw [List.foldl_cons, ih _ (fun kv1 h1 => h kv1 (List.mem_cons_of_mem _ h1))]
    exact get_set_ne o kv.1 k kv.2 (h kv (List.mem_cons_self _ _))

theorem get_foldl_set_congr (props : List (String × Json)) (o o1 : JsObject) (k : String)
    (h : o.get k = o1.get k) :
    (props.foldl (fun o kv => JsObject.set o kv.1 kv.2) o).get k =
      (props.foldl (fun o kv => JsObject.set o kv.1 kv.2) o1).get k := by
  induction props generalizing o o1 with
  | nil => exact h
  | cons kv rest ih =>
    rw [List.foldl_cons, List.foldl_cons]
    apply ih
    by_cases hk : kv.1 = k
    · subst hk; rw [get_set_self, get_set_self]
    · rw [get_set_ne _ _ _ _ hk, get_set_ne _ _ _ _ hk, h]


/-! ## The claims -/

/-- C1. With a successful log query and a valid pattern, `extractTicketsFromGit` returns the
global matches of the pattern in the log text with every later duplicate removed: no string
occurs twice, the strings are exactly those among the matches, and two tickets stand in the
order of their first occurrence among the matches. -/
theorem extractTicketsFromGit_unique_first_occurrence (env : Env)
    (baseBranch releaseBranch ticketPattern : String) (w : World)
    (commitMessages : String) (regex : RegExp)
    (hlog : env.execSync (gitLogCommand baseBranch releaseBranch) = .ok commitMessages)
    (hre : env.newRegExp ticketPattern = .ok regex) :
    ∃ tickets : List String,
      (extractTicketsFromGit env baseBranch releaseBranch ticketPattern w).1 = .ok tickets ∧
      tickets = removeLaterDuplicates (regex.findAll commitMessages) ∧
      tickets.Nodup ∧
      (∀ t, t ∈ tickets ↔ t ∈ regex.findAll commitMessages) ∧
      (∀ a b, a ∈ tickets → b ∈ tickets →
        (List.indexOf a tickets < List.indexOf b tickets ↔
          List.indexOf a (regex.findAll commitMessages) <
            List.indexOf b (regex.findAll commitMessages))) :=
  ⟨_, extractTicketsFromGit_ok env baseBranch releaseBranch ticketPattern w commitMessages regex
      hlog hre, rfl, nodup_removeLaterDuplicates _, mem_removeLaterDuplicates _,
    fun a b _ _ => indexOf_removeLaterDuplicates _ a b⟩

/-- C4. When the `template-data` input is not valid JSON, whatever is on disk, the only call
`run` makes is the failure report: no command is run, no directory or file is created or
written, and the disk is unchanged. -/
theorem run_invalid_template_data (env : Env) (w : World) (raw parseError : String)
    (hraw : env.getInput "template-data" false = .ok raw)
    (hparse : env.jsonParse (strOr raw "\x7b\x7d") = .error parseError) :
    (∃ text, (run env w).log = w.log ++ [Event.setFailed text]) ∧
      (run env w).files = w.files ∧ (run env w).dirs = w.dirs := by
  cases hin : getInputs env with
  | error e =>
    have h : (runTry env w).1 = .error e := by simp [runTry, hin]
    rw [run_of_error h]
    simp [runTry, hin]
  | ok i =>
    obtain ⟨td, _, _, _, _, _, _, _, h4, _, _, _, _, _, htd, _⟩ := getInputs_ok hin
    rw [hraw] at h4
    cases h4
    have h : (runTry env w).1 =
        .error ("Invalid JSON in template-data input: " ++ parseError) := by
      simp [runTry, hin, pipeline, parseTemplateData, htd, hparse]
    rw [run_of_error h]
    simp [runTry, hin, pipeline, parseTemplateData, htd, hparse]

/-- C5. When the inputs load and the template file does not exist, `run` only logs two
informational lines: nothing is written or created, no command is run, no failure is
reported, and the disk is unchanged. -/
theorem run_template_missing (env : Env) (w : World) (i : Inputs) (extra : Json)
    (hin : getInputs env = .ok i)
    (hparse : env.jsonParse i.templateDataInput = .ok extra)
    (hmissing : existsSync w i.templateFile = false) :
    (run env w).log = w.log ++ [Event.info "Successfully parsed template data JSON",
        Event.info ("Template file not found: " ++ i.templateFile)] ∧
      (∀ e ∈ (run env w).log, e ∉ w.log →
        e.isFailure = false ∧ e.isCommand = false ∧ e.isFsWrite = false) ∧
      (run env w).files = w.files ∧ (run env w).dirs = w.dirs := by
  have h : runTry env w = (.ok (), (w.emit (.info "Successfully parsed template data JSON")).emit
      (.info ("Template file not found: " ++ i.templateFile))) := by
    simp [runTry, hin, pipeline, parseTemplateData, hparse, hmissing]
  have hr : run env w = (w.emit (.info "Successfully parsed template data JSON")).emit
      (.info ("Template file not found: " ++ i.templateFile)) := by
    rw [run_of_ok (by rw [h]), h]
  rw [hr]
  refine ⟨by simp, ?_, rfl, rfl⟩
  intro e he hnew
  simp only [emit_log, List.append_assoc, List.mem_append, List.mem_singleton] at he
  rcases he with he | he | he
  · exact absurd he hnew
  · subst he; exact ⟨rfl, rfl, rfl⟩
  · subst he; exact ⟨rfl, rfl, rfl⟩

/-- C10. Each optional input takes the value returned by the input facility when that value
is non-empty and its documented default otherwise, and `run` works with exactly these
values: `JSON.parse` is applied to the resolved template data (its error is the reported
failure, its result is what the written notes are rendered from), the log query names the
resolved base branch, the tickets come from the resolved pattern, and the commit command
carries the resolved author name and email. -/
theorem run_optional_input_defaults (env : Env) (w : World) (i : Inputs)
    (hin : getInputs env = .ok i) :
    ∃ td bb tp un ue,
      env.getInput "template-data" false = .ok td ∧
      env.getInput "base-branch" false = .ok bb ∧
      env.getInput "ticket-pattern" false = .ok tp ∧
      env.getInput "git-user-name" false = .ok un ∧
      env.getInput "git-user-email" false = .ok ue ∧
      i.templateDataInput = (if td ≠ "" then td else "\x7b\x7d") ∧
      i.baseBranch = (if bb ≠ "" then bb else "master") ∧
      i.ticketPattern = (if tp ≠ "" then tp else "[A-Z]+-[0-9]+") ∧
      i.gitUserName = (if un ≠ "" then un else "GitHub Action") ∧
      i.gitUserEmail = (if ue ≠ "" then ue else "action@github.com") ∧
      runTry env w = pipeline env i w ∧
      (∀ e, env.jsonParse i.templateDataInput = .error e →
        (run env w).log = w.log ++ [Event.setFailed
          ("Action failed with error: Invalid JSON in template-data input: " ++ e)]) ∧
      (∀ extra templateStr commitMessages regex outputStr staged,
        env.jsonParse i.templateDataInput = .ok extra →
        readFileSync w i.templateFile = .ok templateStr →
        env.execSync (gitLogCommand i.baseBranch i.releaseBranch) = .ok commitMessages →
        env.newRegExp i.ticketPattern = .ok regex →
        env.renderString false templateStr (buildContext i.releaseVersion
          (removeLaterDuplicates (regex.findAll commitMessages)) extra) = .ok outputStr →
        (existsSync w (env.dirname i.outputFile) = true ∨
          env.mkdirSync (env.dirname i.outputFile) = .ok ()) →
        env.writeFileSync i.outputFile outputStr = .ok () →
        env.execSync (gitAddCommand i.outputFile) = .ok staged →
        readFileSync (run env w) i.outputFile = .ok outputStr ∧
        ∃ rest, (run env w).log = w.log ++
          [Event.info "Successfully parsed template data JSON",
           Event.info ("Extracting tickets from commits in " ++ i.releaseBranch ++
             " that are not in " ++ i.baseBranch ++ "..."),
           Event.info ("Executing: " ++ gitLogCommand i.baseBranch i.releaseBranch),
           Event.execSync (gitLogCommand i.baseBranch i.releaseBranch),
           Event.info ("Extracted " ++
             toString (removeLaterDuplicates (regex.findAll commitMessages)).length ++
             " unique ticket IDs")] ++
          (if existsSync w (env.dirname i.outputFile) = true then []
            else [Event.mkdirSync (env.dirname i.outputFile)]) ++
          [Event.writeFileSync i.outputFile outputStr,
           Event.info ("Release notes generated successfully: " ++ i.outputFile)] ++
          [Event.execSync (gitAddCommand i.outputFile),
           Event.execSync (gitCommitCommand i.gitUserName i.gitUserEmail i.releaseVersion)] ++
          rest) := by
  obtain ⟨td, bb, tp, un, ue, _, _, _, h4, h5, _, h7, h8, h9, e1, e2, e3, e4, e5⟩ :=
    getInputs_ok hin
  refine ⟨td, bb, tp, un, ue, h4, h5, h7, h8, h9, ?_, ?_, ?_, ?_, ?_, ?_, ?_, ?_⟩
  · rw [e1]; unfold strOr; split <;> simp_all
  · rw [e2]; unfold strOr; split <;> simp_all
  · rw [e3]; unfold strOr; split <;> simp_all
  · rw [e4]; unfold strOr; split <;> simp_all
  · rw [e5]; unfold strOr; split <;> simp_all
  · simp [runTry, hin]
  · intro e hparse
    have h : (runTry env w).1 = .error ("Invalid JSON in template-data input: " ++ e) := by
      simp [runTry, hin, pipeline, parseTemplateData, hparse]
    rw [run_of_error h]
    simp only [runTry, hin, pipeline, parseTemplateData, hparse, emit_log]
    rw [← String.append_assoc]
    rfl
  · intro extra templateStr commitMessages regex outputStr staged hparse hread hlog hre hrender
      hdir hwrite hadd
    obtain ⟨w1, hp, hf, hl⟩ := pipeline_written_log env w i extra commitMessages regex
      templateStr outputStr hparse hread hlog hre hrender hdir hwrite
    obtain ⟨hpf, rest, hpl⟩ := publish_staged env i w1 staged hadd
    have hrun : run env w = publish env i w1 := by
      have h : runTry env w = (.ok (), publish env i w1) := by simp [runTry, hin, hp]
      rw [run_of_ok (by rw [h]), h]
    have hfiles : (run env w).files.lookup i.outputFile = some outputStr := by
      rw [hrun, hpf, hf]; simp
    refine ⟨by simp [readFileSync, hfiles], rest, ?_⟩
    rw [hrun, hpl, hl]

/-- C1 at the spec's example and at a log that repeats a ticket. -/
theorem extractTicketsFromGit_unique_first_occurrence_witness :
    (plainEnv.execSync (gitLogCommand "master" "release/1.2.0") = .ok sampleLog ∧
      plainEnv.newRegExp "[A-Z]+-[0-9]+" = .ok defaultRegExp ∧
      (extractTicketsFromGit plainEnv "master" "release/1.2.0" "[A-Z]+-[0-9]+" emptyWorld).1 =
        .ok ["PROJ-2"]) ∧
    (defaultRegExp.findAll repeatingLog = ["PROJ-2", "AB-12", "PROJ-2"] ∧
      (extractTicketsFromGit repeatingEnv "master" "release/1.2.0" "[A-Z]+-[0-9]+"
        emptyWorld).1 = .ok ["PROJ-2", "AB-12"]) ∧
    ∃ tickets : List String,
      (extractTicketsFromGit repeatingEnv "master" "release/1.2.0" "[A-Z]+-[0-9]+"
        emptyWorld).1 = .ok tickets ∧
      tickets = removeLaterDuplicates (defaultRegExp.findAll repeatingLog) ∧
      tickets.Nodup ∧
      (∀ t, t ∈ tickets ↔ t ∈ defaultRegExp.findAll repeatingLog) ∧
      (∀ a b, a ∈ tickets → b ∈ tickets →
        (List.indexOf a tickets < List.indexOf b tickets ↔
          List.indexOf a (defaultRegExp.findAll repeatingLog) <
            List.indexOf b (defaultRegExp.findAll repeatingLog))) :=
  ⟨⟨rfl, rfl, rfl⟩, ⟨rfl, rfl⟩,
    extractTicketsFromGit_unique_first_occurrence repeatingEnv "master" "release/1.2.0"
      "[A-Z]+-[0-9]+" emptyWorld repeatingLog defaultRegExp rfl rfl⟩

/-- C2 evaluated at template data naming `releaseVersion`: the context and the written
notes carry the value of the template data, not the configured release version. -/
theorem releaseVersion_overridden_by_template_data :
    (getInputs overridingEnv).map (fun i => i.releaseVersion) = .ok "1.2.0" ∧
    (buildContext "1.2.0" ["PROJ-2"] (.obj [("releaseVersion", .str "9.9.9")])).get
      "releaseVersion" = some (.str "9.9.9") ∧
    (run overridingEnv sampleWorld).files.lookup "docs/notes.md" =
      some "Version: 9.9.9, Tickets: PROJ-2" :=
  ⟨rfl, rfl, rfl⟩

/-- C3 as stated fails: template data with a key `tickets` replaces the extracted tickets. -/
theorem tickets_overridden_by_template_data :
    (buildContext "1.2.0" ["PROJ-2"] (.obj [("tickets", .arr [])])).get "tickets" =
      some (.arr []) ∧
    (buildContext "1.2.0" ["PROJ-2"] (.obj [("tickets", .arr [])])).get "tickets" ≠
      some (.arr (["PROJ-2"].map Json.str)) := by
  refine ⟨rfl, ?_⟩
  have h : (buildContext "1.2.0" ["PROJ-2"] (.obj [("tickets", .arr [])])).get "tickets" =
      some (.arr []) := rfl
  rw [h]
  simp

/-- C3 amended. When the template data has no key named `tickets`, the context maps
`tickets` to the extracted sequence; and under every name other than the two seeded ones
the context holds what the template data alone defines. -/
theorem buildContext_tickets (releaseVersion : String) (tickets : List String) (extra : Json)
    (h : ∀ kv ∈ ownEnumerableProperties extra, kv.1 ≠ "tickets") :
    (buildContext releaseVersion tickets extra).get "tickets" =
        some (.arr (tickets.map Json.str)) ∧
      ∀ k, k ≠ "releaseVersion" → k ≠ "tickets" →
        (buildContext releaseVersion tickets extra).get k = (spread [] extra).get k := by
  constructor
  · unfold buildContext spread
    rw [get_foldl_set_absent _ _ _ h]
    exact get_set_self _ _ _
  · intro k h1 h2
    unfold buildContext spread
    apply get_foldl_set_congr
    rw [get_set_ne _ _ _ _ (Ne.symm h2)]
    simp [JsObject.set, JsObject.get, Ne.symm h1]

/-- C3 amended at template data that adds a field `team`. -/
theorem buildContext_tickets_witness :
    (buildContext "1.2.0" ["PROJ-2"] (.obj [("team", .str "core")])).get "tickets" =
        some (.arr (["PROJ-2"].map Json.str)) ∧
      ∀ k, k ≠ "releaseVersion" → k ≠ "tickets" →
        (buildContext "1.2.0" ["PROJ-2"] (.obj [("team", .str "core")])).get k =
          (spread [] (.obj [("team", .str "core")])).get k :=
  buildContext_tickets "1.2.0" ["PROJ-2"] (.obj [("team", .str "core")]) (by
    intro kv hkv
    simp only [ownEnumerableProperties, List.mem_singleton] at hkv
    subst hkv
    decide)

/-- C4 at the sample run with unparsable template data and the template on disk. -/
theorem run_invalid_template_data_witness :
    existsSync sampleWorld "templates/notes.njk" = true ∧
    ((∃ text, (run badJsonEnv sampleWorld).log = sampleWorld.log ++ [Event.setFailed text]) ∧
      (run badJsonEnv sampleWorld).files = sampleWorld.files ∧
      (run badJsonEnv sampleWorld).dirs = sampleWorld.dirs) :=
  ⟨rfl, run_invalid_template_data badJsonEnv sampleWorld "not json"
    "Unexpected token 'o', \"not json\" is not valid JSON" rfl rfl⟩

/-- C5 at the sample run on a checkout without the template. -/
theorem run_template_missing_witness :
    (run plainEnv emptyWorld).log = emptyWorld.log ++
        [Event.info "Successfully parsed template data JSON",
         Event.info ("Template file not found: " ++ "templates/notes.njk")] ∧
      (∀ e ∈ (run plainEnv emptyWorld).log, e ∉ emptyWorld.log →
        e.isFailure = false ∧ e.isCommand = false ∧ e.isFsWrite = false) ∧
      (run plainEnv emptyWorld).files = emptyWorld.files ∧
      (run plainEnv emptyWorld).dirs = emptyWorld.dirs :=
  run_template_missing plainEnv emptyWorld
    { templateFile := "templates/notes.njk", outputFile := "docs/notes.md",
      releaseVersion := "1.2.0", templateDataInput := "\x7b\x7d", baseBranch := "master",
      releaseBranch := "release/1.2.0", ticketPattern := "[A-Z]+-[0-9]+",
      gitUserName := "GitHub Action", gitUserEmail := "action@github.com" }
    (.obj []) rfl rfl rfl

/-- C6. When extraction, rendering and writing succeed and staging, committing or pushing
fails, the output file is on disk holding the rendered string, no call of the run reports
failure, and the last call is the warning carrying the failure of the publish step. -/
theorem run_publish_failure (env : Env) (w : World) (i : Inputs) (extra : Json)
    (commitMessages : String) (regex : RegExp) (templateStr outputStr gitError : String)
    (hin : getInputs env = .ok i)
    (hparse : env.jsonParse i.templateDataInput = .ok extra)
    (hread : readFileSync w i.templateFile = .ok templateStr)
    (hlog : env.execSync (gitLogCommand i.baseBranch i.releaseBranch) = .ok commitMessages)
    (hre : env.newRegExp i.ticketPattern = .ok regex)
    (hrender : env.renderString false templateStr (buildContext i.releaseVersion
      (removeLaterDuplicates (regex.findAll commitMessages)) extra) = .ok outputStr)
    (hdir : existsSync w (env.dirname i.outputFile) = true ∨
      env.mkdirSync (env.dirname i.outputFile) = .ok ())
    (hwrite : env.writeFileSync i.outputFile outputStr = .ok ())
    (hpublish : env.execSync (gitAddCommand i.outputFile) = .error gitError ∨
      ((∃ o, env.execSync (gitAddCommand i.outputFile) = .ok o) ∧
        env.execSync (gitCommitCommand i.gitUserName i.gitUserEmail i.releaseVersion) =
          .error gitError) ∨
      ((∃ o, env.execSync (gitAddCommand i.outputFile) = .ok o) ∧
        (∃ o, env.execSync (gitCommitCommand i.gitUserName i.gitUserEmail i.releaseVersion) =
          .ok o) ∧
        env.execSync (gitPushCommand i.releaseBranch) = .error gitError)) :
    readFileSync (run env w) i.outputFile = .ok outputStr ∧
      existsSync (run env w) i.outputFile = true ∧
      ∃ evs, (run env w).log = w.log ++ evs ∧
        evs.all (fun e => !e.isFailure) = true ∧
        evs.getLast? = some (Event.warning ("Failed to commit/push changes: " ++ gitError)) := by
  obtain ⟨w1, hp, hf, evs1, hl1, ha1⟩ := pipeline_written env w i extra commitMessages regex
    templateStr outputStr hparse hread hlog hre hrender hdir hwrite
  obtain ⟨hpf, evs2, hl2, ha2, hlast⟩ := publish_failed env i w1 gitError hpublish
  have hrun : run env w = publish env i w1 := by
    have h : runTry env w = (.ok (), publish env i w1) := by simp [runTry, hin, hp]
    rw [run_of_ok (by rw [h]), h]
  have hfiles : (run env w).files.lookup i.outputFile = some outputStr := by
    rw [hrun, hpf, hf]; simp
  refine ⟨?_, ?_, evs1 ++ evs2, ?_, ?_, ?_⟩
  · simp [readFileSync, hfiles]
  · simp [existsSync, hfiles]
  · rw [hrun, hl2, hl1, List.append_assoc]
  · simp [ha1, ha2]
  · simp [hlast]

/-- C6 at the sample run whose push is rejected. -/
theorem run_publish_failure_witness :
    readFileSync (run pushRejectedEnv sampleWorld) "docs/notes.md" =
        .ok "Version: 1.2.0, Tickets: PROJ-2" ∧
      existsSync (run pushRejectedEnv sampleWorld) "docs/notes.md" = true ∧
      ∃ evs, (run pushRejectedEnv sampleWorld).log = sampleWorld.log ++ evs ∧
        evs.all (fun e => !e.isFailure) = true ∧
        evs.getLast? = some (Event.warning ("Failed to commit/push changes: " ++
          "Command failed: git push origin release/1.2.0")) :=
  run_publish_failure pushRejectedEnv sampleWorld
    { templateFile := "templates/notes.njk", outputFile := "docs/notes.md",
      releaseVersion := "1.2.0", templateDataInput := "\x7b\x7d", baseBranch := "master",
      releaseBranch := "release/1.2.0", ticketPattern := "[A-Z]+-[0-9]+",
      gitUserName := "GitHub Action", gitUserEmail := "action@github.com" }
    (.obj []) sampleLog defaultRegExp
    "Version: \x7b\x7b releaseVersion \x7d\x7d, Tickets: \x7b\x7b tickets | join(', ') \x7d\x7d"
    "Version: 1.2.0, Tickets: PROJ-2" "Command failed: git push origin release/1.2.0"
    rfl rfl rfl rfl rfl rfl (Or.inr rfl) rfl (Or.inr (Or.inr ⟨⟨"", rfl⟩, ⟨"", rfl⟩, rfl⟩))

/-- C7 as stated fails: with an invalid ticket pattern and no template file on disk the run
ends after two informational lines and reports no failure. -/
theorem invalid_ticket_pattern_unreported :
    (getInputs badPatternEnv).map (fun i => i.ticketPattern) = .ok "[A-Z" ∧
    (∃ msg, badPatternEnv.newRegExp "[A-Z" = .error msg) ∧
    (run badPatternEnv emptyWorld).log =
      [Event.info "Successfully parsed template data JSON",
       Event.info "Template file not found: templates/notes.njk"] ∧
    ∀ text, Event.setFailed text ∉ (run badPatternEnv emptyWorld).log := by
  refine ⟨rfl, ⟨_, rfl⟩, rfl, ?_⟩
  intro text
  have h : (run badPatternEnv emptyWorld).log =
      [Event.info "Successfully parsed template data JSON",
       Event.info "Template file not found: templates/notes.njk"] := rfl
  rw [h]
  simp

/-- C7 amended. When the inputs load, the ticket pattern is not a valid regular expression
and the template file exists, the last call of `run` is a failure report; it carries the
regex-compilation error whenever the template data parses and the log query succeeds. -/
theorem run_invalid_ticket_pattern (env : Env) (w : World) (i : Inputs) (msg : String)
    (hin : getInputs env = .ok i)
    (hre : env.newRegExp i.ticketPattern = .error msg)
    (hexists : existsSync w i.templateFile = true) :
    (∃ text, (run env w).log.getLast? = some (Event.setFailed text)) ∧
      ∀ extra commitMessages, env.jsonParse i.templateDataInput = .ok extra →
        env.execSync (gitLogCommand i.baseBranch i.releaseBranch) = .ok commitMessages →
        (run env w).log.getLast? = some (Event.setFailed ("Action failed with error: " ++ msg)) := by
  have hfail : ∀ e, (runTry env w).1 = .error e →
      (run env w).log.getLast? = some (Event.setFailed ("Action failed with error: " ++ e)) := by
    intro e he
    rw [run_of_error he, emit_log, List.getLast?_concat]
  constructor
  · cases hparse : env.jsonParse i.templateDataInput with
    | error e =>
      exact ⟨_, hfail ("Invalid JSON in template-data input: " ++ e) (by
        simp [runTry, hin, pipeline, parseTemplateData, hparse])⟩
    | ok extra =>
      cases hlog : env.execSync (gitLogCommand i.baseBranch i.releaseBranch) with
      | error e =>
        exact ⟨_, hfail e (by
          simp [runTry, hin, pipeline, parseTemplateData, hparse, hexists,
            extractTicketsFromGit, hlog])⟩
      | ok commitMessages =>
        exact ⟨_, hfail msg (by
          simp [runTry, hin, pipeline, parseTemplateData, hparse, hexists,
            extractTicketsFromGit, hlog, hre])⟩
  · intro extra commitMessages hparse hlog
    exact hfail msg (by
      simp [runTry, hin, pipeline, parseTemplateData, hparse, hexists,
        extractTicketsFromGit, hlog, hre])

/-- C7 amended at the sample run with an unterminated bracket class and the template on
disk. -/
theorem run_invalid_ticket_pattern_witness :
    (∃ text, (run badPatternEnv sampleWorld).log.getLast? = some (Event.setFailed text)) ∧
      ∀ extra commitMessages, badPatternEnv.jsonParse "\x7b\x7d" = .ok extra →
        badPatternEnv.execSync (gitLogCommand "master" "release/1.2.0") = .ok commitMessages →
        (run badPatternEnv sampleWorld).log.getLast? = some (Event.setFailed
          ("Action failed with error: " ++
            "Invalid regular expression: /[A-Z/g: Unterminated character class")) :=
  run_invalid_ticket_pattern badPatternEnv sampleWorld
    { templateFile := "templates/notes.njk", outputFile := "docs/notes.md",
      releaseVersion := "1.2.0", templateDataInput := "\x7b\x7d", baseBranch := "master",
      releaseBranch := "release/1.2.0", ticketPattern := "[A-Z",
      gitUserName := "GitHub Action", gitUserEmail := "action@github.com" }
    "Invalid regular expression: /[A-Z/g: Unterminated character class" rfl rfl rfl

/-- C8 as stated fails: on an empty log the valid pattern `[A-Z]*` matches the empty string
once, and the extracted sequence holds that empty string. -/
theorem empty_log_with_nullable_pattern :
    emptyLogEnv.execSync (gitLogCommand "master" "release/1.2.0") = .ok "" ∧
    emptyLogEnv.newRegExp "[A-Z]*" = .ok starRegExp ∧
    (extractTicketsFromGit emptyLogEnv "master" "release/1.2.0" "[A-Z]*" emptyWorld).1 =
      .ok [""] ∧
    (extractTicketsFromGit emptyLogEnv "master" "release/1.2.0" "[A-Z]*" emptyWorld).1 ≠
      .ok [] := by
  refine ⟨rfl, rfl, rfl, ?_⟩
  have h : (extractTicketsFromGit emptyLogEnv "master" "release/1.2.0" "[A-Z]*"
      emptyWorld).1 = .ok [""] := rfl
  rw [h]
  simp

/-- C8 amended. With a successful log query and a valid pattern, if the log text contains
no match of the pattern then `extractTicketsFromGit` returns the empty sequence and no
error. -/
theorem extractTicketsFromGit_no_match (env : Env)
    (baseBranch releaseBranch ticketPattern : String) (w : World)
    (commitMessages : String) (regex : RegExp)
    (hlog : env.execSync (gitLogCommand baseBranch releaseBranch) = .ok commitMessages)
    (hre : env.newRegExp ticketPattern = .ok regex)
    (hnone : regex.findAll commitMessages = []) :
    (extractTicketsFromGit env baseBranch releaseBranch ticketPattern w).1 = .ok [] := by
  rw [extractTicketsFromGit_ok env baseBranch releaseBranch ticketPattern w commitMessages
    regex hlog hre, hnone]
  rfl

/-- C8 amended at the empty log with the default pattern. -/
theorem extractTicketsFromGit_no_match_witness :
    defaultRegExp.findAll "" = [] ∧
    (extractTicketsFromGit emptyLogEnv "master" "release/1.2.0" "[A-Z]+-[0-9]+"
      emptyWorld).1 = .ok [] :=
  ⟨rfl, extractTicketsFromGit_no_match emptyLogEnv "master" "release/1.2.0" "[A-Z]+-[0-9]+"
    emptyWorld "" defaultRegExp rfl rfl rfl⟩

/-- C9. Under each fatal condition the last call of `run` is a failure report whose text is
a fixed leading text followed by the unmodified message of the underlying error. -/
theorem run_fatal_message (env : Env) (w : World) (i : Inputs) (msg : String)
    (hin : getInputs env = .ok i) (hfatal : FatalCondition env w i msg) :
    ∃ lead, lead ∈ failureLeads ∧
      (run env w).log.getLast? = some (Event.setFailed (lead ++ msg)) := by
  have hfail : ∀ e, (runTry env w).1 = .error e →
      (run env w).log.getLast? = some (Event.setFailed ("Action failed with error: " ++ e)) := by
    intro e he
    rw [run_of_error he, emit_log, List.getLast?_concat]
  cases hfatal with
  | invalidJson hparse =>
    refine ⟨"Action failed with error: Invalid JSON in template-data input: ",
      by simp [failureLeads], ?_⟩
    rw [hfail ("Invalid JSON in template-data input: " ++ msg) (by
      simp [runTry, hin, pipeline, parseTemplateData, hparse]), ← String.append_assoc]
    rfl
  | invalidPattern extra commitMessages hparse hexists hlog hre =>
    refine ⟨"Action failed with error: ", by simp [failureLeads], ?_⟩
    exact hfail msg (by
      simp [runTry, hin, pipeline, parseTemplateData, hparse, hexists,
        extractTicketsFromGit, hlog, hre])
  | renderError extra commitMessages regex templateStr hparse hread hlog hre hrender =>
    refine ⟨"Action failed with error: ", by simp [failureLeads], ?_⟩
    have hexists := existsSync_of_readFileSync hread
    exact hfail msg (by
      simp [runTry, hin, pipeline, parseTemplateData, hparse, hexists,
        extractTicketsFromGit, hlog, hre, tickets_eq, hread, hrender])
  | mkdirError extra commitMessages regex templateStr outputStr hparse hread hlog hre hrender
      hnodir hmkdir =>
    refine ⟨"Action failed with error: ", by simp [failureLeads], ?_⟩
    have hexists := existsSync_of_readFileSync hread
    exact hfail msg (by
      simp [runTry, hin, pipeline, parseTemplateData, hparse, hexists,
        extractTicketsFromGit, hlog, hre, tickets_eq, hread, hrender, writeOutput, hnodir,
        hmkdir])
  | writeError extra commitMessages regex templateStr outputStr hparse hread hlog hre hrender
      hdir hwrite =>
    refine ⟨"Action failed with error: ", by simp [failureLeads], ?_⟩
    have hexists := existsSync_of_readFileSync hread
    by_cases hd : existsSync w (env.dirname i.outputFile) = true
    · exact hfail msg (by
        simp [runTry, hin, pipeline, parseTemplateData, hparse, hexists,
          extractTicketsFromGit, hlog, hre, tickets_eq, hread, hrender, writeOutput, hd,
          hwrite])
    · have hm := hdir.resolve_left hd
      exact hfail msg (by
        simp [runTry, hin, pipeline, parseTemplateData, hparse, hexists,
          extractTicketsFromGit, hlog, hre, tickets_eq, hread, hrender, writeOutput, hd, hm,
          hwrite])

/-- C9 at four sample runs: unparsable template data, an unterminated bracket class, a
template that fails to render, and an output file that cannot be written. -/
theorem run_fatal_message_witness :
    (∃ lead, lead ∈ failureLeads ∧ (run badJsonEnv sampleWorld).log.getLast? =
      some (Event.setFailed (lead ++ "Unexpected token 'o', \"not json\" is not valid JSON"))) ∧
    (∃ lead, lead ∈ failureLeads ∧ (run badPatternEnv sampleWorld).log.getLast? =
      some (Event.setFailed (lead ++
        "Invalid regular expression: /[A-Z/g: Unterminated character class"))) ∧
    (∃ lead, lead ∈ failureLeads ∧ (run badTemplateEnv sampleWorld).log.getLast? =
      some (Event.setFailed (lead ++ "(unknown path)\n  Error: filter not found: jion"))) ∧
    (∃ lead, lead ∈ failureLeads ∧ (run readOnlyEnv sampleWorld).log.getLast? =
      some (Event.setFailed (lead ++ "EACCES: permission denied, open docs/notes.md"))) :=
  ⟨run_fatal_message badJsonEnv sampleWorld
      { templateFile := "templates/notes.njk", outputFile := "docs/notes.md",
        releaseVersion := "1.2.0", templateDataInput := "not json", baseBranch := "master",
        releaseBranch := "release/1.2.0", ticketPattern := "[A-Z]+-[0-9]+",
        gitUserName := "GitHub Action", gitUserEmail := "action@github.com" }
      _ rfl (.invalidJson _ rfl),
    run_fatal_message badPatternEnv sampleWorld
      { templateFile := "templates/notes.njk", outputFile := "docs/notes.md",
        releaseVersion := "1.2.0", templateDataInput := "\x7b\x7d", baseBranch := "master",
        releaseBranch := "release/1.2.0", ticketPattern := "[A-Z",
        gitUserName := "GitHub Action", gitUserEmail := "action@github.com" }
      _ rfl (.invalidPattern _ (.obj []) sampleLog rfl rfl rfl rfl),
    run_fatal_message badTemplateEnv sampleWorld
      { templateFile := "templates/notes.njk", outputFile := "docs/notes.md",
        releaseVersion := "1.2.0", templateDataInput := "\x7b\x7d", baseBranch := "master",
        releaseBranch := "release/1.2.0", ticketPattern := "[A-Z]+-[0-9]+",
        gitUserName := "GitHub Action", gitUserEmail := "action@github.com" }
      _ rfl (.renderError _ (.obj []) sampleLog defaultRegExp
        "Version: \x7b\x7b releaseVersion \x7d\x7d, Tickets: \x7b\x7b tickets | join(', ') \x7d\x7d"
        rfl rfl rfl rfl rfl),
    run_fatal_message readOnlyEnv sampleWorld
      { templateFile := "templates/notes.njk", outputFile := "docs/notes.md",
        releaseVersion := "1.2.0", templateDataInput := "\x7b\x7d", baseBranch := "master",
        releaseBranch := "release/1.2.0", ticketPattern := "[A-Z]+-[0-9]+",
        gitUserName := "GitHub Action", gitUserEmail := "action@github.com" }
      _ rfl (.writeError _ (.obj []) sampleLog defaultRegExp
        "Version: \x7b\x7b releaseVersion \x7d\x7d, Tickets: \x7b\x7b tickets | join(', ') \x7d\x7d"
        "Version: 1.2.0, Tickets: PROJ-2" rfl rfl rfl rfl rfl (Or.inr rfl) rfl)⟩

/-- C10 at the sample run that supplies `base-branch` and `git-user-name` and leaves the
other optional inputs out: the log query names `main`, the commit command carries
`Release Bot` and the default email, the tickets come from the default pattern. -/
theorem run_optional_input_defaults_witness :
    (getInputs mainBranchEnv = .ok mainBranchInputs ∧
      mainBranchEnv.getInput "base-branch" false = .ok "main" ∧
      mainBranchEnv.getInput "ticket-pattern" false = .ok "" ∧
      (run mainBranchEnv sampleWorld).log =
        [Event.info "Successfully parsed template data JSON",
         Event.info "Extracting tickets from commits in release/1.2.0 that are not in main...",
         Event.info "Executing: git log main..release/1.2.0 --pretty=format:\"%s\"",
         Event.execSync "git log main..release/1.2.0 --pretty=format:\"%s\"",
         Event.info "Extracted 1 unique ticket IDs",
         Event.mkdirSync "docs",
         Event.writeFileSync "docs/notes.md" "Version: 1.2.0, Tickets: PROJ-2",
         Event.info "Release notes generated successfully: docs/notes.md",
         Event.execSync "git add \"docs/notes.md\"",
         Event.execSync ("git -c user.name=\"Release Bot\" -c user.email=\"action@github.com\"" ++
           " commit -m \"Add release notes for 1.2.0\""),
         Event.execSync "git push origin release/1.2.0",
         Event.info "Successfully committed and pushed release notes to release/1.2.0"]) ∧
    ∃ td bb tp un ue,
      mainBranchEnv.getInput "template-data" false = .ok td ∧
      mainBranchEnv.getInput "base-branch" false = .ok bb ∧
      mainBranchEnv.getInput "ticket-pattern" false = .ok tp ∧
      mainBranchEnv.getInput "git-user-name" false = .ok un ∧
      mainBranchEnv.getInput "git-user-email" false = .ok ue ∧
      mainBranchInputs.templateDataInput = (if td ≠ "" then td else "\x7b\x7d") ∧
      mainBranchInputs.baseBranch = (if bb ≠ "" then bb else "master") ∧
      mainBranchInputs.ticketPattern = (if tp ≠ "" then tp else "[A-Z]+-[0-9]+") ∧
      mainBranchInputs.gitUserName = (if un ≠ "" then un else "GitHub Action") ∧
      mainBranchInputs.gitUserEmail = (if ue ≠ "" then ue else "action@github.com") ∧
      runTry mainBranchEnv sampleWorld = pipeline mainBranchEnv mainBranchInputs sampleWorld ∧
      (∀ e, mainBranchEnv.jsonParse mainBranchInputs.templateDataInput = .error e →
        (run mainBranchEnv sampleWorld).log = sampleWorld.log ++ [Event.setFailed
          ("Action failed with error: Invalid JSON in template-data input: " ++ e)]) ∧
      (∀ extra templateStr commitMessages regex outputStr staged,
        mainBranchEnv.jsonParse mainBranchInputs.templateDataInput = .ok extra →
        readFileSync sampleWorld mainBranchInputs.templateFile = .ok templateStr →
        mainBranchEnv.execSync (gitLogCommand mainBranchInputs.baseBranch mainBranchInputs.releaseBranch) = .ok commitMessages →
        mainBranchEnv.newRegExp mainBranchInputs.ticketPattern = .ok regex →
        mainBranchEnv.renderString false templateStr (buildContext mainBranchInputs.releaseVersion
          (removeLaterDuplicates (regex.findAll commitMessages)) extra) = .ok outputStr →
        (existsSync sampleWorld (mainBranchEnv.dirname mainBranchInputs.outputFile) = true ∨
          mainBranchEnv.mkdirSync (mainBranchEnv.dirname mainBranchInputs.outputFile) = .ok ()) →
        mainBranchEnv.writeFileSync mainBranchInputs.outputFile outputStr = .ok () →
        mainBranchEnv.execSync (gitAddCommand mainBranchInputs.outputFile) = .ok staged →
        readFileSync (run mainBranchEnv sampleWorld) mainBranchInputs.outputFile = .ok outputStr ∧
        ∃ rest, (run mainBranchEnv sampleWorld).log = sampleWorld.log ++
          [Event.info "Successfully parsed template data JSON",
           Event.info ("Extracting tickets from commits in " ++ mainBranchInputs.releaseBranch ++
             " that are not in " ++ mainBranchInputs.baseBranch ++ "..."),
           Event.info ("Executing: " ++ gitLogCommand mainBranchInputs.baseBranch mainBranchInputs.releaseBranch),
           Event.execSync (gitLogCommand mainBranchInputs.baseBranch mainBranchInputs.releaseBranch),
           Event.info ("Extracted " ++
             toString (removeLaterDuplicates (regex.findAll commitMessages)).length ++
             " unique ticket IDs")] ++
          (if existsSync sampleWorld (mainBranchEnv.dirname mainBranchInputs.outputFile) = true then []
            else [Event.mkdirSync (mainBranchEnv.dirname mainBranchInputs.outputFile)]) ++
          [Event.writeFileSync mainBranchInputs.outputFile outputStr,
           Event.info ("Release notes generated successfully: " ++ mainBranchInputs.outputFile)] ++
          [Event.execSync (gitAddCommand mainBranchInputs.outputFile),
           Event.execSync (gitCommitCommand mainBranchInputs.gitUserName mainBranchInputs.gitUserEmail mainBranchInputs.releaseVersion)] ++
          rest) :=
  ⟨⟨rfl, rfl, rfl, rfl⟩,
    run_optional_input_defaults mainBranchEnv sampleWorld mainBranchInputs rfl⟩

end ReleaseNotes
